import Mathlib

/-
Verification development for the Credit Approval System backend.

The business logic under verification lives in app/views.py (customer
registration, credit scoring, amortization, eligibility, loan issuance)
and app/serializers.py (remaining-repayment computation).  Money and
rates are modelled as exact rationals, Python integers as Int/Nat, and
calendar dates as explicit year/month/day records with the calendar
arithmetic of the dateutil relativedelta calls the code performs.
-/

namespace CreditApproval

/-- Rounding of an exact rational to the nearest integer with halves going
to the even neighbour, the behaviour of the Python builtin round on the
float quantities the code rounds. -/
def pyRound (q : ℚ) : ℤ :=
  if q - ⌊q⌋ < 1/2 then ⌊q⌋
  else if 1/2 < q - ⌊q⌋ then ⌊q⌋ + 1
  else if ⌊q⌋ % 2 = 0 then ⌊q⌋ else ⌊q⌋ + 1

/-- Python round(x, 2): round to two decimal places, halves to even. -/
def round2 (q : ℚ) : ℚ := (pyRound (q * 100) : ℚ) / 100

/-- A calendar date, as Python datetime.date: a year, a month (1..12) and a
day of month (1..number of days of that month). -/
structure Date where
  year : ℤ
  month : ℤ
  day : ℤ
deriving DecidableEq

/-- Gregorian leap-year rule, as calendar.isleap. -/
def isLeap (y : ℤ) : Bool :=
  decide ((y % 4 = 0 ∧ y % 100 ≠ 0) ∨ y % 400 = 0)

/-- Number of days of a month of the Gregorian calendar. -/
def daysInMonth (y m : ℤ) : ℤ :=
  if m = 2 then (if isLeap y then 29 else 28)
  else if m = 4 ∨ m = 6 ∨ m = 9 ∨ m = 11 then 30
  else 31

/-- A structurally well-formed calendar date. -/
def Date.Valid (d : Date) : Prop :=
  1 ≤ d.month ∧ d.month ≤ 12 ∧ 1 ≤ d.day ∧ d.day ≤ daysInMonth d.year d.month

instance (d : Date) : Decidable d.Valid := by
  unfold Date.Valid
  infer_instance

/-- Strict chronological order on dates (lexicographic on year, month, day),
the order Python date comparison implements. -/
def Date.lt (a b : Date) : Prop :=
  a.year < b.year ∨
    (a.year = b.year ∧
      (a.month < b.month ∨ (a.month = b.month ∧ a.day < b.day)))

instance (a b : Date) : Decidable (Date.lt a b) := by
  unfold Date.lt
  infer_instance

/-- Chronological order on dates, the Python <= comparison. -/
def Date.le (a b : Date) : Prop :=
  Date.lt a b ∨ a = b

instance (a b : Date) : Decidable (Date.le a b) := by
  unfold Date.le
  infer_instance

/-- Number of days of the months preceding month m in year y. -/
def daysBeforeMonth (y m : ℤ) : ℤ :=
  (if 2 ≤ m then 31 else 0) + (if 3 ≤ m then 28 else 0) +
  (if 4 ≤ m then 31 else 0) + (if 5 ≤ m then 30 else 0) +
  (if 6 ≤ m then 31 else 0) + (if 7 ≤ m then 30 else 0) +
  (if 8 ≤ m then 31 else 0) + (if 9 ≤ m then 31 else 0) +
  (if 10 ≤ m then 30 else 0) + (if 11 ≤ m then 31 else 0) +
  (if 12 ≤ m then 30 else 0) +
  (if 3 ≤ m ∧ isLeap y then 1 else 0)

/-- Proleptic Gregorian ordinal of a date, as Python date.toordinal: day 1
is January 1 of year 1.  Used to take day differences between dates. -/
def Date.toOrdinal (d : Date) : ℤ :=
  365 * (d.year - 1) + (d.year - 1) / 4 - (d.year - 1) / 100
    + (d.year - 1) / 400 + daysBeforeMonth d.year d.month + d.day

/-- Date plus a number of calendar months, as date + relativedelta(months=n):
the month index is shifted and the day of month is clamped to the length of
the target month. -/
def Date.addMonths (d : Date) (n : ℤ) : Date :=
  { year := (d.year * 12 + (d.month - 1) + n) / 12
    month := (d.year * 12 + (d.month - 1) + n) % 12 + 1
    day := min d.day (daysInMonth ((d.year * 12 + (d.month - 1) + n) / 12)
        ((d.year * 12 + (d.month - 1) + n) % 12 + 1)) }

/-- Total month component of relativedelta(d1, d2) for d1 on or after d2:
the raw year-and-month difference, decremented when d2 shifted by that many
months lands after d1.  For d1 on or after d2 the correction loop of
dateutil runs at most once, so a single conditional decrement is exact. -/
def relMonthsGe (d1 d2 : Date) : ℤ :=
  if Date.lt d1 (d2.addMonths ((d1.year - d2.year) * 12 + (d1.month - d2.month)))
  then (d1.year - d2.year) * 12 + (d1.month - d2.month) - 1
  else (d1.year - d2.year) * 12 + (d1.month - d2.month)

/-- ViewLoansSerializer.get_repayments_left: 0 when today is past the end
date; otherwise the relativedelta month count from today to the end date
(years times 12 plus months), plus 1 when a partial month of days remains. -/
def get_repayments_left (today end_date : Date) : ℤ :=
  if Date.lt end_date today then 0
  else
    if 0 < end_date.toOrdinal - (today.addMonths (relMonthsGe end_date today)).toOrdinal
    then relMonthsGe end_date today + 1
    else relMonthsGe end_date today

/-- A customer record, restricted to the fields the core logic reads. -/
structure Customer where
  monthly_salary : ℚ
  approved_limit : ℚ

/-- A loan record, with the fields the core logic reads. -/
structure Loan where
  loan_amount : ℚ
  tenure : ℕ
  interest_rate : ℚ
  monthly_repayment : ℚ
  emis_paid_on_time : ℕ
  start_date : Date
  end_date : Date

/-- The loans of the customer that are currently active, i.e. whose end
date is on or after today (the end_date__gte=date.today() filter). -/
def activeLoans (today : Date) (loans : List Loan) : List Loan :=
  loans.filter (fun l => decide (Date.le today l.end_date))

/-- Sum of the principal amounts of the currently active loans. -/
def current_loan_sum (today : Date) (loans : List Loan) : ℚ :=
  ((activeLoans today loans).map Loan.loan_amount).sum

/-- Sum of the monthly repayments of the currently active loans. -/
def current_emi_sum (today : Date) (loans : List Loan) : ℚ :=
  ((activeLoans today loans).map Loan.monthly_repayment).sum

/-- On-time payment weight of the credit score: EMIs paid on time over all
loans, divided by total tenure over all loans, times 30; 0 when the total
tenure is 0. -/
def paid_on_time_weight (loans : List Loan) : ℚ :=
  if (loans.map (fun l => (l.tenure : ℚ))).sum > 0 then
    ((loans.map (fun l => (l.emis_paid_on_time : ℚ))).sum
        / (loans.map (fun l => (l.tenure : ℚ))).sum) * 30
  else 0

/-- Loan-count weight of the credit score: 5 per loan, capped at 20. -/
def num_loans_weight (loans : List Loan) : ℚ :=
  min ((loans.length : ℚ) * 5) 20

/-- Current-year activity weight: 5 per loan started in the current
calendar year, capped at 20. -/
def loan_activity_weight (today : Date) (loans : List Loan) : ℚ :=
  min (((loans.filter (fun l => decide (l.start_date.year = today.year))).length : ℚ) * 5)
    20

/-- Loan-volume weight: total historical principal over approved limit,
times 15, capped at 15; 0 unless the limit is positive and the total does
not exceed it. -/
def loan_volume_weight (customer : Customer) (loans : List Loan) : ℚ :=
  if customer.approved_limit > 0 ∧
      (loans.map Loan.loan_amount).sum ≤ customer.approved_limit then
    min (((loans.map Loan.loan_amount).sum / customer.approved_limit) * 15) 15
  else 0

/-- calculate_credit_score of app/views.py: hard rejection to 0 when the
active-loan principal sum exceeds the approved limit, otherwise the rounded
sum of a baseline of 25 and the four history weights. -/
def calculate_credit_score (today : Date) (customer : Customer)
    (loans : List Loan) : ℤ :=
  if current_loan_sum today loans > customer.approved_limit then 0
  else
    pyRound (25 + paid_on_time_weight loans + num_loans_weight loans
      + loan_activity_weight today loans + loan_volume_weight customer loans)

/-- calculate_monthly_installment of app/views.py.  The none result models
the float infinity sentinel the Python code returns on degenerate input;
no rounding is applied inside the function. -/
def calculate_monthly_installment (loan_amount interest_rate : ℚ)
    (tenure : ℕ) : Option ℚ :=
  if tenure = 0 then none
  else
    if interest_rate / 100 / 12 = 0 then some (loan_amount / (tenure : ℚ))
    else
      if (1 + interest_rate / 100 / 12) ^ tenure - 1 = 0 then none
      else
        some ((loan_amount * (interest_rate / 100 / 12)
            * (1 + interest_rate / 100 / 12) ^ tenure)
          / ((1 + interest_rate / 100 / 12) ^ tenure - 1))

/-- The credit-score tier ladder of get_eligibility_status, lines 147-159
of app/views.py: given the computed credit score and the requested rate it
yields the approval flag and the corrected interest rate. -/
def tierDecision (credit_score : ℤ) (interest_rate : ℚ) : Bool × ℚ :=
  if credit_score > 50 then (true, interest_rate)
  else if 30 < credit_score ∧ credit_score ≤ 50 then (true, max interest_rate 12)
  else if 10 < credit_score ∧ credit_score ≤ 30 then (true, max interest_rate 16)
  else (false, interest_rate)

/-- Result record of get_eligibility_status.  The installment is an Option:
none models the float infinity sentinel propagating out of the amortization
formula, some a finite value. -/
structure EligibilityResult where
  approval : Bool
  corrected_interest_rate : ℚ
  monthly_installment : Option ℚ
deriving DecidableEq

/-- get_eligibility_status of app/views.py: reject outright when the active
monthly repayments exceed half the monthly salary, otherwise decide by the
credit-score tier ladder; the installment is computed only on approval and
rounded to 2 decimal places in the returned record. -/
def get_eligibility_status (today : Date) (customer : Customer)
    (loans : List Loan) (loan_amount interest_rate : ℚ) (tenure : ℕ) :
    EligibilityResult :=
  if current_emi_sum today loans > customer.monthly_salary * (1/2) then
    { approval := false
      corrected_interest_rate := interest_rate
      monthly_installment := some 0 }
  else
    { approval := (tierDecision (calculate_credit_score today customer loans) interest_rate).1
      corrected_interest_rate :=
        (tierDecision (calculate_credit_score today customer loans) interest_rate).2
      monthly_installment :=
        (if (tierDecision (calculate_credit_score today customer loans) interest_rate).1
         then calculate_monthly_installment loan_amount
            (tierDecision (calculate_credit_score today customer loans) interest_rate).2
            tenure
         else some 0).map round2 }

/-- Approved limit computed at registration, line 32 of app/views.py:
36 times the monthly income, rounded to the nearest multiple of 100000. -/
def register_approved_limit (monthly_income : ℚ) : ℚ :=
  (pyRound (36 * monthly_income / 100000) : ℚ) * 100000

/-- The customer record built by register_customer from a validated monthly
income: the salary is stored as given and the approved limit derived. -/
def register_customer (monthly_income : ℚ) : Customer :=
  { monthly_salary := monthly_income
    approved_limit := register_approved_limit monthly_income }

/-- Response body of the create-loan endpoint, with the HTTP status code it
is delivered with. -/
structure CreateLoanResponse where
  loan_id : Option ℕ
  customer_id : ℕ
  loan_approved : Bool
  message : String
  monthly_installment : Option ℚ
  http_status : ℕ
deriving DecidableEq

/-- create_loan of app/views.py, for an existing customer: run the
eligibility check; on rejection answer 200 with no loan created and the
store untouched; on approval persist a new loan record (end date a calendar
tenure of months after today, zero EMIs paid) and answer 201.  The store is
the list of loans of the customer; none models the degenerate path where
the installment sentinel is infinite and the Python rounding call raises. -/
def create_loan (today : Date) (customer : Customer) (loans : List Loan)
    (customer_id next_loan_id : ℕ) (loan_amount interest_rate : ℚ)
    (tenure : ℕ) : Option (CreateLoanResponse × List Loan) :=
  if (get_eligibility_status today customer loans loan_amount interest_rate tenure).approval
  then
    match (get_eligibility_status today customer loans loan_amount interest_rate tenure).monthly_installment with
    | none => none
    | some mi =>
      some ({ loan_id := some next_loan_id
              customer_id := customer_id
              loan_approved := true
              message := "Loan approved successfully!"
              monthly_installment := some mi
              http_status := 201 },
        loans ++ [{ loan_amount := loan_amount
                    tenure := tenure
                    interest_rate :=
                      (get_eligibility_status today customer loans loan_amount interest_rate tenure).corrected_interest_rate
                    monthly_repayment := mi
                    emis_paid_on_time := 0
                    start_date := today
                    end_date := today.addMonths (tenure : ℤ) }])
  else
    some ({ loan_id := none
            customer_id := customer_id
            loan_approved := false
            message := "Loan not approved based on eligibility check."
            monthly_installment := some 0
            http_status := 200 },
      loans)

/-- pyRound fixes integers. -/
lemma pyRound_intCast (n : ℤ) : pyRound (n : ℚ) = n := by
  unfold pyRound
  rw [Int.floor_intCast]
  norm_num

/-- pyRound never rounds below an integer lower bound of its argument. -/
lemma le_pyRound {n : ℤ} {q : ℚ} (h : (n : ℚ) ≤ q) : n ≤ pyRound q := by
  have hf : n ≤ ⌊q⌋ := Int.le_floor.mpr h
  unfold pyRound
  split_ifs <;> omega

/-- pyRound never rounds above an integer upper bound of its argument. -/
lemma pyRound_le {n : ℤ} {q : ℚ} (h : q ≤ (n : ℚ)) : pyRound q ≤ n := by
  have hf : ⌊q⌋ ≤ n := (Int.floor_mono h).trans_eq (Int.floor_intCast n)
  have hfl : (⌊q⌋ : ℚ) ≤ q := Int.floor_le q
  unfold pyRound
  split_ifs with h1 h2 h3
  · exact hf
  · rcases lt_or_eq_of_le hf with hlt | heq
    · omega
    · exfalso
      have hcast : ((⌊q⌋ : ℤ) : ℚ) = (n : ℚ) := by exact_mod_cast heq
      linarith
  · exact hf
  · have hq : q - ⌊q⌋ = 1/2 := le_antisymm (not_lt.mp h2) (not_lt.mp h1)
    have hqlt : ((⌊q⌋ : ℤ) : ℚ) < (n : ℚ) := by linarith
    have : ⌊q⌋ < n := by exact_mod_cast hqlt
    omega

/-- Rounding a nonnegative rational to two decimals keeps it nonnegative. -/
lemma round2_nonneg {q : ℚ} (h : 0 ≤ q) : 0 ≤ round2 q := by
  unfold round2
  have h0 : ((0 : ℤ) : ℚ) ≤ q * 100 := by
    push_cast
    positivity
  have := le_pyRound h0
  have hcast : (0 : ℚ) ≤ (pyRound (q * 100) : ℚ) := by exact_mod_cast this
  positivity

/-- The on-time payment weight is nonnegative. -/
lemma paid_on_time_weight_nonneg (loans : List Loan) :
    0 ≤ paid_on_time_weight loans := by
  unfold paid_on_time_weight
  split_ifs with h
  · have hnum : 0 ≤ (loans.map (fun l => (l.emis_paid_on_time : ℚ))).sum := by
      apply List.sum_nonneg
      intro x hx
      obtain ⟨l, _, rfl⟩ := List.mem_map.mp hx
      positivity
    exact mul_nonneg (div_nonneg hnum h.le) (by norm_num)
  · exact le_refl 0

/-- When every loan has paid at most its tenure of EMIs on time, the on-time
payment weight is at most 30. -/
lemma paid_on_time_weight_le (loans : List Loan)
    (h : ∀ l ∈ loans, l.emis_paid_on_time ≤ l.tenure) :
    paid_on_time_weight loans ≤ 30 := by
  unfold paid_on_time_weight
  split_ifs with ht
  · have hle : (loans.map (fun l => (l.emis_paid_on_time : ℚ))).sum
        ≤ (loans.map (fun l => (l.tenure : ℚ))).sum := by
      apply List.sum_le_sum
      intro l hl
      exact_mod_cast h l hl
    have hdiv : (loans.map (fun l => (l.emis_paid_on_time : ℚ))).sum
        / (loans.map (fun l => (l.tenure : ℚ))).sum ≤ 1 := (div_le_one ht).mpr hle
    linarith
  · norm_num

/-- The loan-count weight lies between 0 and 20. -/
lemma num_loans_weight_bounds (loans : List Loan) :
    0 ≤ num_loans_weight loans ∧ num_loans_weight loans ≤ 20 := by
  unfold num_loans_weight
  constructor
  · exact le_min (by positivity) (by norm_num)
  · exact min_le_right _ _

/-- The current-year activity weight lies between 0 and 20. -/
lemma loan_activity_weight_bounds (today : Date) (loans : List Loan) :
    0 ≤ loan_activity_weight today loans ∧ loan_activity_weight today loans ≤ 20 := by
  unfold loan_activity_weight
  constructor
  · exact le_min (by positivity) (by norm_num)
  · exact min_le_right _ _

/-- With nonnegative principals the loan-volume weight is nonnegative. -/
lemma loan_volume_weight_nonneg (customer : Customer) (loans : List Loan)
    (h : ∀ l ∈ loans, 0 ≤ l.loan_amount) :
    0 ≤ loan_volume_weight customer loans := by
  unfold loan_volume_weight
  split_ifs with hc
  · have hsum : 0 ≤ (loans.map Loan.loan_amount).sum := by
      apply List.sum_nonneg
      intro x hx
      obtain ⟨l, hl, rfl⟩ := List.mem_map.mp hx
      exact h l hl
    exact le_min (mul_nonneg (div_nonneg hsum hc.1.le) (by norm_num)) (by norm_num)
  · exact le_refl 0

/-- The loan-volume weight is at most 15. -/
lemma loan_volume_weight_le (customer : Customer) (loans : List Loan) :
    loan_volume_weight customer loans ≤ 15 := by
  unfold loan_volume_weight
  split_ifs
  · exact min_le_right _ _
  · norm_num

/-- The corrected rate of the tier ladder never drops below a nonnegative
requested rate origin. -/
lemma tierDecision_rate_nonneg (s : ℤ) (r : ℚ) (hr : 0 ≤ r) :
    0 ≤ (tierDecision s r).2 := by
  unfold tierDecision
  split_ifs <;> simp <;> exact hr

/-- Chronological strict order on dates is irreflexive. -/
lemma date_lt_irrefl (d : Date) : ¬ Date.lt d d := by
  unfold Date.lt
  omega

/-- Shifting a well-formed date by zero months gives it back. -/
lemma addMonths_zero (d : Date) (hd : d.Valid) : d.addMonths 0 = d := by
  obtain ⟨h1, h2, h3, h4⟩ := hd
  unfold Date.addMonths
  have hy : (d.year * 12 + (d.month - 1) + 0) / 12 = d.year := by omega
  have hm : (d.year * 12 + (d.month - 1) + 0) % 12 + 1 = d.month := by omega
  have hday : min d.day (daysInMonth d.year d.month) = d.day := min_eq_left h4
  rw [hy, hm, hday]

/-- The relativedelta month count from a well-formed date to itself is 0. -/
lemma relMonthsGe_self (d : Date) (hd : d.Valid) : relMonthsGe d d = 0 := by
  unfold relMonthsGe
  have h0 : (d.year - d.year) * 12 + (d.month - d.month) = 0 := by ring
  rw [h0, addMonths_zero d hd, if_neg (date_lt_irrefl d)]

/-- For an end point on or after the start point, the relativedelta month
count is nonnegative. -/
lemma relMonthsGe_nonneg (d1 d2 : Date) (h1 : d1.Valid) (h2 : d2.Valid)
    (h : ¬ Date.lt d1 d2) : 0 ≤ relMonthsGe d1 d2 := by
  have h1a := h1.1
  have h1b := h1.2.1
  have h2a := h2.1
  have h2b := h2.2.1
  unfold Date.lt at h
  by_cases hsame : d1.year = d2.year ∧ d1.month = d2.month
  · unfold relMonthsGe
    have h0 : (d1.year - d2.year) * 12 + (d1.month - d2.month) = 0 := by omega
    rw [h0, addMonths_zero d2 h2]
    rw [if_neg (by unfold Date.lt; omega)]
  · unfold relMonthsGe
    split_ifs <;> omega

/-- Under positive principal, nonnegative rate and positive tenure the
amortization function yields a finite, strictly positive installment. -/
lemma installment_pos (loan_amount rate : ℚ) (tenure : ℕ)
    (hamt : 0 < loan_amount) (hrate : 0 ≤ rate) (hten : 1 ≤ tenure) :
    ∃ v, calculate_monthly_installment loan_amount rate tenure = some v ∧ 0 < v := by
  unfold calculate_monthly_installment
  rw [if_neg (by omega)]
  by_cases hr : rate / 100 / 12 = 0
  · rw [if_pos hr]
    refine ⟨_, rfl, ?_⟩
    have htq : (0 : ℚ) < (tenure : ℚ) := by
      exact_mod_cast Nat.lt_of_lt_of_le Nat.zero_lt_one hten
    exact div_pos hamt htq
  · rw [if_neg hr]
    have hrpos : 0 < rate / 100 / 12 := lt_of_le_of_ne (by positivity) (Ne.symm hr)
    have hbase : (1 : ℚ) < 1 + rate / 100 / 12 := by linarith
    have hpow : (1 : ℚ) < (1 + rate / 100 / 12) ^ tenure :=
      one_lt_pow₀ hbase (by omega)
    have hden : (0 : ℚ) < (1 + rate / 100 / 12) ^ tenure - 1 := by linarith
    rw [if_neg hden.ne']
    refine ⟨_, rfl, ?_⟩
    exact div_pos (mul_pos (mul_pos hamt hrpos) (by linarith)) hden

/-- Claim C1: for every customer and loan history, when the sum of the
principals of the active loans (end date on or after today) strictly
exceeds the approved limit, the credit score is exactly 0, and every
eligibility evaluation that passes the debt-burden guard and therefore
reaches the scoring step is not approved. -/
theorem claim_C1 (today : Date) (customer : Customer) (loans : List Loan)
    (loan_amount interest_rate : ℚ) (tenure : ℕ)
    (hsum : current_loan_sum today loans > customer.approved_limit) :
    calculate_credit_score today customer loans = 0 ∧
    (¬ current_emi_sum today loans > customer.monthly_salary * (1/2) →
      (get_eligibility_status today customer loans loan_amount interest_rate
        tenure).approval = false) := by
  have hs : calculate_credit_score today customer loans = 0 := by
    unfold calculate_credit_score
    rw [if_pos hsum]
  refine ⟨hs, fun hguard => ?_⟩
  unfold get_eligibility_status
  rw [if_neg hguard, hs]
  norm_num [tierDecision]

def c1today : Date := { year := 2024, month := 6, day := 15 }

def c1loan : Loan :=
  { loan_amount := 200, tenure := 12, interest_rate := 10
    monthly_repayment := 10, emis_paid_on_time := 0
    start_date := { year := 2024, month := 1, day := 1 }
    end_date := { year := 2025, month := 1, day := 1 } }

def c1customer : Customer := { monthly_salary := 1000, approved_limit := 100 }

/-- Witness for C1 at a concrete state: one active loan of principal 200
against an approved limit of 100, with a passing debt-burden guard. -/
theorem claim_C1_witness :
    current_loan_sum c1today [c1loan] > c1customer.approved_limit ∧
    calculate_credit_score c1today c1customer [c1loan] = 0 ∧
    (get_eligibility_status c1today c1customer [c1loan] 5000 10 6).approval = false := by
  have hsum : current_loan_sum c1today [c1loan] > c1customer.approved_limit := by
    norm_num [current_loan_sum, activeLoans, c1today, c1loan, c1customer,
      Date.le, Date.lt, List.filter]
  have hguard : ¬ current_emi_sum c1today [c1loan]
      > c1customer.monthly_salary * (1/2) := by
    norm_num [current_emi_sum, activeLoans, c1today, c1loan, c1customer,
      Date.le, Date.lt, List.filter]
  have h := claim_C1 c1today c1customer [c1loan] 5000 10 6 hsum
  exact ⟨hsum, h.1, h.2 hguard⟩

/-- Claim C2: whenever the sum of the monthly installments of the active
loans strictly exceeds half the monthly salary, the eligibility evaluation
rejects with the requested rate unchanged and a zero installment, whatever
the credit score would have been. -/
theorem claim_C2 (today : Date) (customer : Customer) (loans : List Loan)
    (loan_amount interest_rate : ℚ) (tenure : ℕ)
    (hguard : current_emi_sum today loans > customer.monthly_salary * (1/2)) :
    get_eligibility_status today customer loans loan_amount interest_rate tenure
      = { approval := false
          corrected_interest_rate := interest_rate
          monthly_installment := some 0 } := by
  unfold get_eligibility_status
  rw [if_pos hguard]

def c2today : Date := { year := 2024, month := 6, day := 15 }

def c2loan : Loan :=
  { loan_amount := 50, tenure := 12, interest_rate := 10
    monthly_repayment := 600, emis_paid_on_time := 3
    start_date := { year := 2024, month := 1, day := 1 }
    end_date := { year := 2025, month := 1, day := 1 } }

def c2customer : Customer := { monthly_salary := 1000, approved_limit := 500000 }

/-- Witness for C2 at a concrete state: an active installment of 600
against a salary of 1000. -/
theorem claim_C2_witness :
    current_emi_sum c2today [c2loan] > c2customer.monthly_salary * (1/2) ∧
    get_eligibility_status c2today c2customer [c2loan] 5000 10 6
      = { approval := false
          corrected_interest_rate := 10
          monthly_installment := some 0 } := by
  have hguard : current_emi_sum c2today [c2loan]
      > c2customer.monthly_salary * (1/2) := by
    norm_num [current_emi_sum, activeLoans, c2today, c2loan, c2customer,
      Date.le, Date.lt, List.filter]
  exact ⟨hguard, claim_C2 c2today c2customer [c2loan] 5000 10 6 hguard⟩

/-- Claim C3: past the debt-burden guard the decision is exactly the tier
ladder applied to the computed credit score, and the tier boundaries are
half-open as listed: a score of exactly 50 approves with corrected rate
max(requested, 12), a score of exactly 30 approves with corrected rate
max(requested, 16), and a score of exactly 10 rejects. -/
theorem claim_C3 (today : Date) (customer : Customer) (loans : List Loan)
    (loan_amount interest_rate : ℚ) (tenure : ℕ)
    (hguard : ¬ current_emi_sum today loans > customer.monthly_salary * (1/2)) :
    ((get_eligibility_status today customer loans loan_amount interest_rate
        tenure).approval,
      (get_eligibility_status today customer loans loan_amount interest_rate
        tenure).corrected_interest_rate)
      = tierDecision (calculate_credit_score today customer loans) interest_rate ∧
    tierDecision 50 interest_rate = (true, max interest_rate 12) ∧
    tierDecision 30 interest_rate = (true, max interest_rate 16) ∧
    tierDecision 10 interest_rate = (false, interest_rate) := by
  refine ⟨?_, by norm_num [tierDecision], by norm_num [tierDecision],
    by norm_num [tierDecision]⟩
  unfold get_eligibility_status
  rw [if_neg hguard]

def c3today : Date := { year := 2024, month := 6, day := 15 }

def c3customer : Customer := { monthly_salary := 1000, approved_limit := 500000 }

/-- Witness for C3 at a concrete state passing the guard, exhibiting the
boundary decisions at scores 50 and 10. -/
theorem claim_C3_witness :
    (¬ current_emi_sum c3today ([] : List Loan)
        > c3customer.monthly_salary * (1/2)) ∧
    tierDecision 50 (5 : ℚ) = (true, max 5 12) ∧
    tierDecision 10 (5 : ℚ) = (false, 5) := by
  have hguard : ¬ current_emi_sum c3today ([] : List Loan)
      > c3customer.monthly_salary * (1/2) := by
    norm_num [current_emi_sum, activeLoans, c3customer, List.filter]
  have h := claim_C3 c3today c3customer [] 1000 5 6 hguard
  exact ⟨hguard, h.2.1, h.2.2.2⟩

/-- Claim C4: outside the hard-rejection path the credit score equals the
rounded sum of the baseline 25 and the four weights, hence (over histories
with nonnegative principals, as the data model guarantees) is at least 25,
and when every loan has paid at most its tenure of EMIs on time it is at
most 110: no cap at 100 is applied. -/
theorem claim_C4 (today : Date) (customer : Customer) (loans : List Loan)
    (hsum : ¬ current_loan_sum today loans > customer.approved_limit) :
    calculate_credit_score today customer loans
      = pyRound (25 + paid_on_time_weight loans + num_loans_weight loans
          + loan_activity_weight today loans + loan_volume_weight customer loans) ∧
    ((∀ l ∈ loans, 0 ≤ l.loan_amount) →
      25 ≤ calculate_credit_score today customer loans) ∧
    ((∀ l ∈ loans, l.emis_paid_on_time ≤ l.tenure) →
      calculate_credit_score today customer loans ≤ 110) := by
  have heq : calculate_credit_score today customer loans
      = pyRound (25 + paid_on_time_weight loans + num_loans_weight loans
          + loan_activity_weight today loans + loan_volume_weight customer loans) := by
    unfold calculate_credit_score
    rw [if_neg hsum]
  refine ⟨heq, fun hpos => ?_, fun hemis => ?_⟩
  · rw [heq]
    apply le_pyRound
    have w1 := paid_on_time_weight_nonneg loans
    have w2 := (num_loans_weight_bounds loans).1
    have w3 := (loan_activity_weight_bounds today loans).1
    have w4 := loan_volume_weight_nonneg customer loans hpos
    push_cast
    linarith
  · rw [heq]
    apply pyRound_le
    have w1 := paid_on_time_weight_le loans hemis
    have w2 := (num_loans_weight_bounds loans).2
    have w3 := (loan_activity_weight_bounds today loans).2
    have w4 := loan_volume_weight_le customer loans
    have w5 := paid_on_time_weight_nonneg loans
    push_cast
    linarith

def c4today : Date := { year := 2024, month := 6, day := 15 }

def c4customer : Customer := { monthly_salary := 1000, approved_limit := 100 }

/-- Witness for C4 at a concrete state: an empty history, where the score
is the rounded baseline and both bounds hold. -/
theorem claim_C4_witness :
    (¬ current_loan_sum c4today ([] : List Loan) > c4customer.approved_limit) ∧
    25 ≤ calculate_credit_score c4today c4customer [] ∧
    calculate_credit_score c4today c4customer [] ≤ 110 := by
  have hsum : ¬ current_loan_sum c4today ([] : List Loan)
      > c4customer.approved_limit := by
    norm_num [current_loan_sum, activeLoans, c4customer, List.filter]
  have h := claim_C4 c4today c4customer [] hsum
  exact ⟨hsum, h.2.1 (by simp), h.2.2 (by simp)⟩

/-- Claim C5: a customer with no loans whose empty installment sum passes
the salary guard (and whose stored limit is, as registration guarantees,
nonnegative) scores exactly 25, and is approved with corrected rate
max(requested, 16), the over-10-up-to-30 tier. -/
theorem claim_C5 (today : Date) (customer : Customer)
    (loan_amount interest_rate : ℚ) (tenure : ℕ)
    (hsal : 0 ≤ customer.monthly_salary) (hlim : 0 ≤ customer.approved_limit) :
    calculate_credit_score today customer [] = 25 ∧
    (get_eligibility_status today customer [] loan_amount interest_rate
      tenure).approval = true ∧
    (get_eligibility_status today customer [] loan_amount interest_rate
      tenure).corrected_interest_rate = max interest_rate 16 := by
  have hsum : ¬ current_loan_sum today ([] : List Loan) > customer.approved_limit := by
    have h0 : current_loan_sum today ([] : List Loan) = 0 := rfl
    rw [h0]
    exact not_lt.mpr hlim
  have hscore : calculate_credit_score today customer [] = 25 := by
    unfold calculate_credit_score
    rw [if_neg hsum]
    have hw1 : paid_on_time_weight [] = 0 := by norm_num [paid_on_time_weight]
    have hw2 : num_loans_weight [] = 0 := by norm_num [num_loans_weight]
    have hw3 : loan_activity_weight today [] = 0 := by
      norm_num [loan_activity_weight, List.filter]
    have hw4 : loan_volume_weight customer [] = 0 := by
      unfold loan_volume_weight
      split_ifs <;> norm_num
    rw [hw1, hw2, hw3, hw4]
    norm_num [pyRound]
  have hguard : ¬ current_emi_sum today ([] : List Loan)
      > customer.monthly_salary * (1/2) := by
    have h0 : current_emi_sum today ([] : List Loan) = 0 := rfl
    rw [h0]
    have hs2 : 0 ≤ customer.monthly_salary * (1/2) :=
      mul_nonneg hsal (by norm_num)
    exact not_lt.mpr hs2
  refine ⟨hscore, ?_, ?_⟩ <;>
  · unfold get_eligibility_status
    rw [if_neg hguard, hscore]
    norm_num [tierDecision]

def c5today : Date := { year := 2024, month := 6, day := 15 }

def c5customer : Customer := { monthly_salary := 75000, approved_limit := 2700000 }

/-- Witness for C5 at a concrete customer with no loan history. -/
theorem claim_C5_witness :
    (0 : ℚ) ≤ c5customer.monthly_salary ∧
    (0 : ℚ) ≤ c5customer.approved_limit ∧
    calculate_credit_score c5today c5customer [] = 25 ∧
    (get_eligibility_status c5today c5customer [] 300000 10 12).approval = true := by
  have h := claim_C5 c5today c5customer 300000 10 12
    (by norm_num [c5customer]) (by norm_num [c5customer])
  exact ⟨by norm_num [c5customer], by norm_num [c5customer], h.1, h.2.1⟩

/-- Claim C6: the amortization function returns the infinite sentinel on
zero tenure, the straight-line quotient when the monthly rate is zero, the
sentinel when the reducing-balance denominator vanishes, and otherwise the
exact reducing-balance formula, with no rounding applied inside. -/
theorem claim_C6 (loan_amount interest_rate : ℚ) (tenure : ℕ) :
    (tenure = 0 →
      calculate_monthly_installment loan_amount interest_rate tenure = none) ∧
    (tenure ≠ 0 → interest_rate / 100 / 12 = 0 →
      calculate_monthly_installment loan_amount interest_rate tenure
        = some (loan_amount / (tenure : ℚ))) ∧
    (tenure ≠ 0 → interest_rate / 100 / 12 ≠ 0 →
      (1 + interest_rate / 100 / 12) ^ tenure - 1 = 0 →
      calculate_monthly_installment loan_amount interest_rate tenure = none) ∧
    (tenure ≠ 0 → interest_rate / 100 / 12 ≠ 0 →
      (1 + interest_rate / 100 / 12) ^ tenure - 1 ≠ 0 →
      calculate_monthly_installment loan_amount interest_rate tenure
        = some ((loan_amount * (interest_rate / 100 / 12)
            * (1 + interest_rate / 100 / 12) ^ tenure)
          / ((1 + interest_rate / 100 / 12) ^ tenure - 1))) := by
  refine ⟨fun h0 => ?_, fun h0 hr => ?_, fun h0 hr hd => ?_, fun h0 hr hd => ?_⟩
  · unfold calculate_monthly_installment
    rw [if_pos h0]
  · unfold calculate_monthly_installment
    rw [if_neg h0, if_pos hr]
  · unfold calculate_monthly_installment
    rw [if_neg h0, if_neg hr, if_pos hd]
  · unfold calculate_monthly_installment
    rw [if_neg h0, if_neg hr, if_neg hd]

/-- Witness for C6: each of the four branches exercised at a concrete
input, including the degenerate rate that zeroes the denominator. -/
theorem claim_C6_witness :
    calculate_monthly_installment 100 12 0 = none ∧
    calculate_monthly_installment 100 0 4 = some 25 ∧
    calculate_monthly_installment 100 (-2400) 2 = none ∧
    calculate_monthly_installment 5 1200 1 = some 10 := by
  refine ⟨(claim_C6 100 12 0).1 rfl, ?_, ?_, ?_⟩
  · have h := (claim_C6 100 0 4).2.1 (by norm_num) (by norm_num)
    rw [h]
    norm_num
  · exact (claim_C6 100 (-2400) 2).2.2.1 (by norm_num) (by norm_num) (by norm_num)
  · have h := (claim_C6 5 1200 1).2.2.2 (by norm_num) (by norm_num) (by norm_num)
    rw [h]
    norm_num

/-- Claim C7: a create-loan request whose eligibility evaluation rejects
creates no loan record: the store is returned unchanged and the response is
a successful 200 with a null loan id, loan_approved false, zero installment
and an informative message. -/
theorem claim_C7 (today : Date) (customer : Customer) (loans : List Loan)
    (customer_id next_loan_id : ℕ) (loan_amount interest_rate : ℚ) (tenure : ℕ)
    (hrej : (get_eligibility_status today customer loans loan_amount interest_rate
      tenure).approval = false) :
    create_loan today customer loans customer_id next_loan_id loan_amount
        interest_rate tenure
      = some ({ loan_id := none
                customer_id := customer_id
                loan_approved := false
                message := "Loan not approved based on eligibility check."
                monthly_installment := some 0
                http_status := 200 }, loans) := by
  unfold create_loan
  rw [hrej]
  simp

def c7today : Date := { year := 2024, month := 6, day := 15 }

def c7loan : Loan :=
  { loan_amount := 50, tenure := 12, interest_rate := 10
    monthly_repayment := 600, emis_paid_on_time := 3
    start_date := { year := 2024, month := 1, day := 1 }
    end_date := { year := 2025, month := 1, day := 1 } }

def c7customer : Customer := { monthly_salary := 1000, approved_limit := 500000 }

/-- Witness for C7 at a concrete rejected request: the store comes back
exactly as it went in. -/
theorem claim_C7_witness :
    (get_eligibility_status c7today c7customer [c7loan] 5000 10 6).approval
      = false ∧
    create_loan c7today c7customer [c7loan] 42 7 5000 10 6
      = some ({ loan_id := none
                customer_id := 42
                loan_approved := false
                message := "Loan not approved based on eligibility check."
                monthly_installment := some 0
                http_status := 200 }, [c7loan]) := by
  have hrej : (get_eligibility_status c7today c7customer [c7loan] 5000 10 6).approval
      = false := by
    norm_num [get_eligibility_status, current_emi_sum, activeLoans, c7today,
      c7loan, c7customer, Date.le, Date.lt, List.filter]
  exact ⟨hrej, claim_C7 c7today c7customer [c7loan] 42 7 5000 10 6 hrej⟩

/-- Claim C8: registration with a positive monthly income stores an
approved limit of 36 times the income rounded to the nearest multiple of
100000; an income of 75000 yields 2700000. -/
theorem claim_C8 (monthly_income : ℚ) (_h : 0 < monthly_income) :
    (register_customer monthly_income).approved_limit
      = (pyRound (36 * monthly_income / 100000) : ℚ) * 100000 ∧
    (register_customer 75000).approved_limit = 2700000 := by
  refine ⟨rfl, ?_⟩
  norm_num [register_customer, register_approved_limit, pyRound]

/-- Witness for C8 at the spec example income of 75000. -/
theorem claim_C8_witness :
    (0 : ℚ) < 75000 ∧ (register_customer 75000).approved_limit = 2700000 :=
  ⟨by norm_num, (claim_C8 75000 (by norm_num)).2⟩

/-- Claim C9: the remaining-repayment count is 0 for an end date strictly
in the past and for an end date of exactly today, and is never negative for
well-formed dates: monthly deltas round partial months up. -/
theorem claim_C9 (today end_date : Date) (ht : today.Valid) (he : end_date.Valid) :
    (Date.lt end_date today → get_repayments_left today end_date = 0) ∧
    (end_date = today → get_repayments_left today end_date = 0) ∧
    (¬ Date.lt end_date today → 0 ≤ get_repayments_left today end_date) := by
  refine ⟨fun hpast => ?_, fun heq => ?_, fun hnot => ?_⟩
  · unfold get_repayments_left
    rw [if_pos hpast]
  · rw [heq]
    unfold get_repayments_left
    rw [if_neg (date_lt_irrefl today)]
    rw [relMonthsGe_self today ht, addMonths_zero today ht]
    simp
  · unfold get_repayments_left
    rw [if_neg hnot]
    have hm := relMonthsGe_nonneg end_date today he ht hnot
    split_ifs <;> omega

def c9today : Date := { year := 2024, month := 6, day := 15 }

def c9past : Date := { year := 2024, month := 6, day := 14 }

/-- Witness for C9 at concrete well-formed dates: an end date one day in
the past and an end date of exactly today both give 0. -/
theorem claim_C9_witness :
    Date.Valid c9today ∧ Date.Valid c9past ∧ Date.lt c9past c9today ∧
    get_repayments_left c9today c9past = 0 ∧
    get_repayments_left c9today c9today = 0 := by
  refine ⟨by decide, by decide, by decide, ?_, ?_⟩
  · exact (claim_C9 c9today c9past (by decide) (by decide)).1 (by decide)
  · exact (claim_C9 c9today c9today (by decide) (by decide)).2.1 rfl

def c10today : Date := { year := 2024, month := 6, day := 15 }

def c10loan : Loan :=
  { loan_amount := 1, tenure := 2, interest_rate := 10
    monthly_repayment := 1, emis_paid_on_time := 0
    start_date := { year := 2024, month := 1, day := 1 }
    end_date := { year := 2024, month := 3, day := 1 } }

def c10customer : Customer := { monthly_salary := 1000, approved_limit := 1000000 }

def c10loans : List Loan := [c10loan, c10loan, c10loan]

/-- Counterexample to C10 as stated: a request meeting all the schema
preconditions (amount 1/100 > 0, rate 0, tenure 12) by a customer whose
history scores 55, hence is approved at the requested rate, yet whose
two-decimal rounded installment in the eligibility result is 0, not
strictly positive. -/
theorem claim_C10_counterexample :
    (0 : ℚ) < 1/100 ∧ (0 : ℚ) ≤ 0 ∧ 1 ≤ 12 ∧
    (get_eligibility_status c10today c10customer c10loans (1/100) 0 12).approval
      = true ∧
    (get_eligibility_status c10today c10customer c10loans
      (1/100) 0 12).monthly_installment = some 0 := by
  have h : get_eligibility_status c10today c10customer c10loans (1/100) 0 12
      = { approval := true, corrected_interest_rate := 0
          monthly_installment := some 0 } := by
    norm_num [get_eligibility_status, current_emi_sum, activeLoans, c10today,
      c10customer, c10loans, c10loan, Date.le, Date.lt, List.filter,
      calculate_credit_score, current_loan_sum, paid_on_time_weight,
      num_loans_weight, loan_activity_weight, loan_volume_weight, pyRound,
      tierDecision, calculate_monthly_installment, round2]
  refine ⟨by norm_num, le_refl 0, by norm_num, by rw [h], by rw [h]⟩

/-- Claim C10, amended: under the schema preconditions the amortization
function never returns the infinite sentinel and its exact value is
strictly positive; consequently every approved eligibility result carries
a finite installment, namely that positive value rounded to two decimals,
which is nonnegative but can round down to 0 for very small amounts. -/
theorem claim_C10 (loan_amount interest_rate : ℚ) (tenure : ℕ)
    (hamt : 0 < loan_amount) (hrate : 0 ≤ interest_rate) (hten : 1 ≤ tenure) :
    (∃ v, calculate_monthly_installment loan_amount interest_rate tenure
        = some v ∧ 0 < v) ∧
    ∀ (today : Date) (customer : Customer) (loans : List Loan),
      (get_eligibility_status today customer loans loan_amount interest_rate
        tenure).approval = true →
      ∃ v, calculate_monthly_installment loan_amount
            (get_eligibility_status today customer loans loan_amount interest_rate
              tenure).corrected_interest_rate tenure = some v ∧ 0 < v ∧
        (get_eligibility_status today customer loans loan_amount interest_rate
          tenure).monthly_installment = some (round2 v) ∧ 0 ≤ round2 v := by
  refine ⟨installment_pos loan_amount interest_rate tenure hamt hrate hten, ?_⟩
  intro today customer loans happ
  by_cases hguard : current_emi_sum today loans > customer.monthly_salary * (1/2)
  · exfalso
    unfold get_eligibility_status at happ
    rw [if_pos hguard] at happ
    simp at happ
  · unfold get_eligibility_status at happ ⊢
    rw [if_neg hguard] at happ ⊢
    obtain ⟨v, hv, hvpos⟩ := installment_pos loan_amount
      (tierDecision (calculate_credit_score today customer loans) interest_rate).2
      tenure hamt (tierDecision_rate_nonneg _ _ hrate) hten
    refine ⟨v, ?_, hvpos, ?_, round2_nonneg hvpos.le⟩
    · simpa using hv
    · simp only at happ
      simp [happ, hv]

/-- Witness for the amended C10 at a concrete request. -/
theorem claim_C10_witness :
    (0 : ℚ) < 100 ∧ (0 : ℚ) ≤ 12 ∧ 1 ≤ 1 ∧
    (∃ v, calculate_monthly_installment 100 12 1 = some v ∧ 0 < v) := by
  refine ⟨by norm_num, by norm_num, le_refl 1, ?_⟩
  exact (claim_C10 100 12 1 (by norm_num) (by norm_num) (le_refl 1)).1

end CreditApproval
